import Mathlib

/-!
Verification of the ATSight-AI analysis pipeline (src/src/App.tsx).

The single source file is a React component.  The analysis core consists of:
  * `extractTextFromPDF`  — wraps the pdf-to-text capability, returning `''` on failure;
  * the `analyzeResume` handler — input guard, extraction, prompt construction,
    one Groq chat-completion call, `JSON.parse` of the reply, and storage of the
    parsed value into component state;
  * `getATSColor` — case-insensitive colour selection for the `ats_compatibility` value.

The embedding below models the handler as a function from the component state and
an environment (the resolved results of the two external awaits: text extraction
and the service call) to a run result recording the final state, the observable
outcome (which alert/toast fires), and instrumentation counters (how many times
extraction and the service client were invoked, and which prompts were built).
JSON values are modelled by an inductive `Json` type; `JSON.parse` of the raw
reply is modelled by `Option Json` (`none` = the text is not decodable, the parse
throws).  JSON numbers only appear in the claims as integers, so `Json.num`
carries an `Int`.
-/

/-- A JSON value, as produced by a successful `JSON.parse`. -/
inductive Json where
  | null : Json
  | bool : Bool → Json
  | num : Int → Json
  | str : String → Json
  | arr : List Json → Json
  | obj : List (String × Json) → Json

/-- Field lookup on a JSON object (first binding wins); `none` on non-objects or
absent keys.  Used to observe individual fields of the value the code stores. -/
def lookupField (j : Json) (k : String) : Option Json :=
  match j with
  | .obj fs => (fs.find? (fun p => p.fst == k)).map Prod.snd
  | _ => none

/-- The required field names of the `AnalysisResult` interface
(src/src/App.tsx lines 9–45), in declaration order. -/
def requiredFields : List String :=
  ["overall_summary", "resume_score", "ats_compatibility", "resume_length",
   "readability_score", "skills_match", "soft_skills_match",
   "technical_proficiency", "keywords_analysis", "job_requirements_coverage",
   "experience_alignment", "tone_of_language", "formatting_issues",
   "grammar_issues", "recommendations"]

/-- JavaScript whitespace (the characters removed by `String.prototype.trim`):
ASCII whitespace plus the non-breaking space, line/paragraph separators and BOM. -/
def isJsWhitespace (c : Char) : Bool :=
  c == ' ' || c == '\t' || c == '\n' || c == '\r' ||
  c == '\x0b' || c == '\x0c' || c == '\u00A0' ||
  c == '\u2028' || c == '\u2029' || c == '\uFEFF'

/-- JavaScript `String.prototype.trim`: strip leading and trailing whitespace. -/
def jsTrim (s : String) : String :=
  String.mk (((s.data.dropWhile isJsWhitespace).reverse.dropWhile isJsWhitespace).reverse)

/-- The fixed text of the prompt template before the interpolated resume text
(src/src/App.tsx lines 95–139). -/
def promptHeader : String :=
  "\nYou are an AI Resume Analyzer designed to help job seekers improve their resumes. Analyze the following resume against the provided job description and return a response in strict JSON format as per the schema below. Give detailed recommendations and insights based on the analysis. Analyze the resume STRICTLY based on the job description.\n"
  ++ "\nRespond ONLY with the JSON object.\n"
  ++ "\nSchema:\n"
  ++ "\x7b\n"
  ++ "  \"overall_summary\": string,\n"
  ++ "  \"resume_score\": number (0 to 100),\n"
  ++ "  \"ats_compatibility\": \"High\" | \"Medium\" | \"Low\",\n"
  ++ "  \"resume_length\": \"Too Short\" | \"Optimal\" | \"Too Long\",\n"
  ++ "  \"readability_score\": number (0 to 100),\n"
  ++ "  \"skills_match\": \x7b\n"
  ++ "    \"matched\": string[],\n"
  ++ "    \"missing\": string[],\n"
  ++ "    \"match_percentage\": number (0 to 100)\n"
  ++ "  \x7d,\n"
  ++ "  \"soft_skills_match\": \x7b\n"
  ++ "    \"matched\": string[],\n"
  ++ "    \"missing\": string[]\n"
  ++ "  \x7d,\n"
  ++ "  \"technical_proficiency\": \x7b\n"
  ++ "    \"strong\": string[],\n"
  ++ "    \"moderate\": string[],\n"
  ++ "    \"weak_or_missing\": string[]\n"
  ++ "  \x7d,\n"
  ++ "  \"keywords_analysis\": \x7b\n"
  ++ "    \"present_keywords\": string[],\n"
  ++ "    \"missing_keywords\": string[]\n"
  ++ "  \x7d,\n"
  ++ "  \"job_requirements_coverage\": \x7b\n"
  ++ "    \"met_requirements\": string[],\n"
  ++ "    \"missing_requirements\": string[]\n"
  ++ "  \x7d,\n"
  ++ "  \"experience_alignment\": \x7b\n"
  ++ "    \"aligned_experience\": string[],\n"
  ++ "    \"missing_experience_areas\": string[]\n"
  ++ "  \x7d,\n"
  ++ "  \"tone_of_language\": \"Professional\" | \"Casual\" | \"Neutral\" | \"Aggressive\",\n"
  ++ "  \"formatting_issues\": string[],\n"
  ++ "  \"grammar_issues\": string[],\n"
  ++ "  \"recommendations\": string[]\n"
  ++ "\x7d\n"
  ++ "\nResume:\n"

/-- The fixed text between the interpolated resume text and job description
(src/src/App.tsx lines 141–143). -/
def promptMid : String := "\n\nJob Description:\n"

/-- The fixed text after the interpolated job description (line 144). -/
def promptTail : String := "\n"

/-- The prompt template literal of `analyzeResume` (src/src/App.tsx lines 95–144):
the fixed instruction and schema text with the resume text and job description
interpolated verbatim. -/
def buildPrompt (resumeText jobDescription : String) : String :=
  promptHeader ++ resumeText ++ promptMid ++ jobDescription ++ promptTail

/-- JavaScript `String.prototype.toLowerCase`, modelled as the per-character
lower-case map (the ASCII mapping; the enum values involved are all ASCII). -/
def jsToLower (s : String) : String := String.mk (s.data.map Char.toLower)

/-- `getATSColor` (src/src/App.tsx lines 171–178): lower-cases the received
`ats_compatibility` value and switches on it, defaulting to gray. -/
def getATSColor (compatibility : String) : String :=
  if jsToLower compatibility == "high" then "text-green-600"
  else if jsToLower compatibility == "medium" then "text-yellow-600"
  else if jsToLower compatibility == "low" then "text-red-600"
  else "text-gray-600"

/-- The component state touched by `analyzeResume`: the selected file (opaque, only
presence matters to the guard), the job-description text, the stored analysis
result (the unvalidated value `JSON.parse` produced), and the loading flag. -/
structure AppState where
  resumeFile : Option Unit
  jobDescription : String
  analysisResult : Option Json
  loading : Bool

/-- The resolved results of the two external awaits inside one run:
`extractedText` is what `extractTextFromPDF` resolves to (it catches internal
failures and resolves to `''`); `serviceResult` is the outcome of the Groq call:
`.error` = the call throws (network/auth/rate-limit/server, all caught alike),
`.ok none` = the call succeeds but the reply body is not decodable JSON (the
subsequent `JSON.parse` throws), `.ok (some j)` = the body decodes to `j`. -/
structure Env where
  extractedText : String
  serviceResult : Except Unit (Option Json)

/-- The observable outcome of one `analyzeResume` invocation, identified by which
user-visible signal fires: the missing-input alert (line 78), the
"Failed to Scan Resume" toast (line 88), the success toast (line 154), or the
catch-block alert (line 159).  `busy` is named by the spec's error taxonomy
(`ErrorKind.Busy`); the code contains no corresponding branch. -/
inductive Outcome where
  | missingInput : Outcome
  | emptyDocument : Outcome
  | success : Outcome
  | failure : Outcome
  | busy : Outcome
deriving DecidableEq

/-- The result of one `analyzeResume` invocation: the final component state, the
observable outcome, and instrumentation recording how many times text extraction
and the service client were invoked and which prompts were constructed. -/
structure RunResult where
  state : AppState
  outcome : Outcome
  extractCalls : Nat
  serviceCalls : Nat
  promptsBuilt : List String

/-- `analyzeResume` (src/src/App.tsx lines 76–163).  In order: the missing-input
guard (lines 77–80, returning before `setLoading(true)`), `setLoading(true)`,
extraction, the trimmed-emptiness check (line 87, resetting loading and
returning), prompt construction, the service call, `JSON.parse` of the reply,
and `setAnalysisResult` on success; any throw lands in the catch block, and the
`finally` resets loading. -/
def analyzeResume (s : AppState) (env : Env) : RunResult :=
  if s.resumeFile.isNone || s.jobDescription == "" then
    { state := s, outcome := .missingInput,
      extractCalls := 0, serviceCalls := 0, promptsBuilt := [] }
  else
    let s1 : AppState := { s with loading := true }
    let resumeText := env.extractedText
    if jsTrim resumeText == "" then
      { state := { s1 with loading := false }, outcome := .emptyDocument,
        extractCalls := 1, serviceCalls := 0, promptsBuilt := [] }
    else
      let prompt := buildPrompt resumeText s.jobDescription
      match env.serviceResult with
      | .error _ =>
        { state := { s1 with loading := false }, outcome := .failure,
          extractCalls := 1, serviceCalls := 1, promptsBuilt := [prompt] }
      | .ok none =>
        { state := { s1 with loading := false }, outcome := .failure,
          extractCalls := 1, serviceCalls := 1, promptsBuilt := [prompt] }
      | .ok (some j) =>
        { state := { s1 with loading := false, analysisResult := some j },
          outcome := .success,
          extractCalls := 1, serviceCalls := 1, promptsBuilt := [prompt] }

/-- A user click on the Analyze button (src/src/App.tsx lines 604–607): the
button is disabled while `loading || !resumeFile || !jobDescription`, so a click
in those states invokes nothing (`none`); otherwise it invokes `analyzeResume`. -/
def clickAnalyze (s : AppState) (env : Env) : Option RunResult :=
  if s.loading || s.resumeFile.isNone || s.jobDescription == "" then none
  else some (analyzeResume s env)

/-! ### Branch equations for `analyzeResume` -/

/-- Missing-input branch (lines 77–80): returns before `setLoading(true)`,
leaving the whole state unchanged, with no extraction and no service call. -/
theorem run_missingInput (s : AppState) (env : Env)
    (h : (s.resumeFile.isNone || s.jobDescription == "") = true) :
    analyzeResume s env =
      { state := s, outcome := .missingInput,
        extractCalls := 0, serviceCalls := 0, promptsBuilt := [] } := by
  unfold analyzeResume
  rw [h]
  rfl

/-- Empty-extraction branch (lines 87–93): loading is reset, the result is kept,
no prompt is built and the service is not called. -/
theorem run_emptyDoc (s : AppState) (env : Env)
    (h1 : (s.resumeFile.isNone || s.jobDescription == "") = false)
    (h2 : (jsTrim env.extractedText == "") = true) :
    analyzeResume s env =
      { state := { s with loading := false }, outcome := .emptyDocument,
        extractCalls := 1, serviceCalls := 0, promptsBuilt := [] } := by
  unfold analyzeResume
  dsimp only
  rw [h1, h2]
  rfl

/-- Service-throw branch (caught at lines 157–162): one service call was made,
the stored result is kept, loading is reset. -/
theorem run_serviceError (s : AppState) (env : Env) (e : Unit)
    (h1 : (s.resumeFile.isNone || s.jobDescription == "") = false)
    (h2 : (jsTrim env.extractedText == "") = false)
    (hs : env.serviceResult = .error e) :
    analyzeResume s env =
      { state := { s with loading := false }, outcome := .failure,
        extractCalls := 1, serviceCalls := 1,
        promptsBuilt := [buildPrompt env.extractedText s.jobDescription] } := by
  unfold analyzeResume
  dsimp only
  rw [h1, h2, hs]
  rfl

/-- Undecodable-reply branch: `JSON.parse` throws (line 152), landing in the same
catch block; the stored result is kept, loading is reset. -/
theorem run_parseFail (s : AppState) (env : Env)
    (h1 : (s.resumeFile.isNone || s.jobDescription == "") = false)
    (h2 : (jsTrim env.extractedText == "") = false)
    (hs : env.serviceResult = .ok none) :
    analyzeResume s env =
      { state := { s with loading := false }, outcome := .failure,
        extractCalls := 1, serviceCalls := 1,
        promptsBuilt := [buildPrompt env.extractedText s.jobDescription] } := by
  unfold analyzeResume
  dsimp only
  rw [h1, h2, hs]
  rfl

/-- Success branch (lines 152–156): the decoded value is stored as the analysis
result exactly as parsed, loading is reset. -/
theorem run_success (s : AppState) (env : Env) (j : Json)
    (h1 : (s.resumeFile.isNone || s.jobDescription == "") = false)
    (h2 : (jsTrim env.extractedText == "") = false)
    (hs : env.serviceResult = .ok (some j)) :
    analyzeResume s env =
      { state := { s with analysisResult := some j, loading := false },
        outcome := .success, extractCalls := 1, serviceCalls := 1,
        promptsBuilt := [buildPrompt env.extractedText s.jobDescription] } := by
  unfold analyzeResume
  dsimp only
  rw [h1, h2, hs]
  rfl

/-- A string all of whose characters are JavaScript whitespace trims to `""`. -/
theorem jsTrim_eq_empty (t : String)
    (h : ∀ c ∈ t.data, isJsWhitespace c = true) : jsTrim t = "" := by
  have h1 : t.data.dropWhile isJsWhitespace = [] :=
    List.dropWhile_eq_nil_iff.mpr h
  simp [jsTrim, h1]

/-! ### Concrete fixtures used by witnesses and counterexamples -/

/-- A state with both inputs present, no stored result, and no run in flight. -/
def readyState : AppState :=
  { resumeFile := some (),
    jobDescription := "Seeking backend engineer with Go, Kubernetes, AWS experience",
    analysisResult := none, loading := false }

/-- An environment where extraction succeeds and the service reply decodes to `j`. -/
def envReturning (j : Json) : Env :=
  { extractedText := "Experienced Go developer, 5 years, AWS, Docker",
    serviceResult := .ok (some j) }

/-- A full reply payload with every `AnalysisResult` field present, parameterised
by the `resume_score` value and the `ats_compatibility` string. -/
def mkPayload (resumeScore : Int) (ats : String) : Json :=
  Json.obj
    [("overall_summary", Json.str "Solid backend profile"),
     ("resume_score", Json.num resumeScore),
     ("ats_compatibility", Json.str ats),
     ("resume_length", Json.str "Optimal"),
     ("readability_score", Json.num 80),
     ("skills_match", Json.obj
       [("matched", Json.arr [Json.str "Go", Json.str "AWS"]),
        ("missing", Json.arr [Json.str "Kubernetes"]),
        ("match_percentage", Json.num 66)]),
     ("soft_skills_match", Json.obj
       [("matched", Json.arr [Json.str "Communication"]),
        ("missing", Json.arr [])]),
     ("technical_proficiency", Json.obj
       [("strong", Json.arr [Json.str "Go"]),
        ("moderate", Json.arr [Json.str "Docker"]),
        ("weak_or_missing", Json.arr [Json.str "Kubernetes"])]),
     ("keywords_analysis", Json.obj
       [("present_keywords", Json.arr [Json.str "AWS"]),
        ("missing_keywords", Json.arr [Json.str "Kubernetes"])]),
     ("job_requirements_coverage", Json.obj
       [("met_requirements", Json.arr [Json.str "Go experience"]),
        ("missing_requirements", Json.arr [Json.str "Kubernetes"])]),
     ("experience_alignment", Json.obj
       [("aligned_experience", Json.arr [Json.str "Backend development"]),
        ("missing_experience_areas", Json.arr [])]),
     ("tone_of_language", Json.str "Professional"),
     ("formatting_issues", Json.arr []),
     ("grammar_issues", Json.arr []),
     ("recommendations", Json.arr [Json.str "Add Kubernetes experience"])]

/-! ### Claims -/

/-- C5: if the job description is empty or no document is supplied, the run fails
with the missing-input outcome immediately: text extraction is never performed
and no network call to the service client is made. -/
theorem c5_missing_input_fails_before_extraction (s : AppState) (env : Env)
    (h : s.resumeFile = none ∨ s.jobDescription = "") :
    (analyzeResume s env).outcome = Outcome.missingInput ∧
    (analyzeResume s env).extractCalls = 0 ∧
    (analyzeResume s env).serviceCalls = 0 := by
  have hb : (s.resumeFile.isNone || s.jobDescription == "") = true := by
    rcases h with h | h <;> simp [h]
  rw [run_missingInput s env hb]
  exact ⟨rfl, rfl, rfl⟩

/-- C5 witness: a run with no document selected fails with the missing-input
outcome, zero extractions and zero service calls. -/
theorem c5_witness :
    (analyzeResume
        { resumeFile := none,
          jobDescription := "Seeking backend engineer with Go, Kubernetes, AWS experience",
          analysisResult := none, loading := false }
        (envReturning (mkPayload 72 "High"))).outcome = Outcome.missingInput ∧
    (analyzeResume
        { resumeFile := none,
          jobDescription := "Seeking backend engineer with Go, Kubernetes, AWS experience",
          analysisResult := none, loading := false }
        (envReturning (mkPayload 72 "High"))).extractCalls = 0 ∧
    (analyzeResume
        { resumeFile := none,
          jobDescription := "Seeking backend engineer with Go, Kubernetes, AWS experience",
          analysisResult := none, loading := false }
        (envReturning (mkPayload 72 "High"))).serviceCalls = 0 :=
  c5_missing_input_fails_before_extraction _ _ (Or.inl rfl)

/-- C4: if both inputs are present but text extraction yields the empty string,
the run fails with the empty-document outcome, no prompt is built and the
service client is never invoked. -/
theorem c4_empty_extraction_fails_fast (s : AppState) (env : Env)
    (hf : s.resumeFile ≠ none) (hj : s.jobDescription ≠ "")
    (he : env.extractedText = "") :
    (analyzeResume s env).outcome = Outcome.emptyDocument ∧
    (analyzeResume s env).promptsBuilt = [] ∧
    (analyzeResume s env).serviceCalls = 0 := by
  have h1 : (s.resumeFile.isNone || s.jobDescription == "") = false := by
    obtain ⟨u, hu⟩ := Option.ne_none_iff_exists'.mp hf
    simp [hu, hj]
  have h2 : (jsTrim env.extractedText == "") = true := by
    rw [he]
    rfl
  rw [run_emptyDoc s env h1 h2]
  exact ⟨rfl, rfl, rfl⟩

/-- C4 witness: with inputs present and extraction resolving to `""`, the run
fails with the empty-document outcome, builds no prompt and makes no service call. -/
theorem c4_witness :
    (analyzeResume readyState
        { extractedText := "", serviceResult := .ok (some (mkPayload 72 "High")) }).outcome
      = Outcome.emptyDocument ∧
    (analyzeResume readyState
        { extractedText := "", serviceResult := .ok (some (mkPayload 72 "High")) }).promptsBuilt
      = [] ∧
    (analyzeResume readyState
        { extractedText := "", serviceResult := .ok (some (mkPayload 72 "High")) }).serviceCalls
      = 0 :=
  c4_empty_extraction_fails_fast readyState _ (by simp [readyState]) (by simp [readyState]) rfl

/-- C10: extracted text consisting only of whitespace characters is treated the
same as an empty extraction — the emptiness test trims first — so the run fails
with the empty-document outcome and the service client is never invoked. -/
theorem c10_whitespace_only_empty (s : AppState) (env : Env)
    (hf : s.resumeFile ≠ none) (hj : s.jobDescription ≠ "")
    (hw : ∀ c ∈ env.extractedText.data, isJsWhitespace c = true) :
    (analyzeResume s env).outcome = Outcome.emptyDocument ∧
    (analyzeResume s env).serviceCalls = 0 := by
  have h1 : (s.resumeFile.isNone || s.jobDescription == "") = false := by
    obtain ⟨u, hu⟩ := Option.ne_none_iff_exists'.mp hf
    simp [hu, hj]
  have h2 : (jsTrim env.extractedText == "") = true := by
    rw [jsTrim_eq_empty env.extractedText hw]
    rfl
  rw [run_emptyDoc s env h1 h2]
  exact ⟨rfl, rfl⟩

/-- C10 witness: extraction resolving to `"  \n\t  "` (whitespace only, nonempty)
fails with the empty-document outcome and never calls the service. -/
theorem c10_witness :
    (analyzeResume readyState
        { extractedText := "  \n\t  ",
          serviceResult := .ok (some (mkPayload 72 "High")) }).outcome
      = Outcome.emptyDocument ∧
    (analyzeResume readyState
        { extractedText := "  \n\t  ",
          serviceResult := .ok (some (mkPayload 72 "High")) }).serviceCalls = 0 :=
  c10_whitespace_only_empty readyState _ (by simp [readyState]) (by simp [readyState])
    (by decide)

/-- C9: every invocation of `analyzeResume` started from a non-running state ends
with the loading flag false: the missing-input early return never sets it, the
empty-document return resets it, and the `finally` block resets it on success and
on every caught error. -/
theorem c9_loading_reset (s : AppState) (env : Env) (h : s.loading = false) :
    (analyzeResume s env).state.loading = false := by
  cases hb1 : (s.resumeFile.isNone || s.jobDescription == "") with
  | true => rw [run_missingInput s env hb1]; exact h
  | false =>
    cases hb2 : (jsTrim env.extractedText == "") with
    | true => rw [run_emptyDoc s env hb1 hb2]
    | false =>
      cases hsvc : env.serviceResult with
      | error e => rw [run_serviceError s env e hb1 hb2 hsvc]
      | ok o =>
        cases o with
        | none => rw [run_parseFail s env hb1 hb2 hsvc]
        | some j => rw [run_success s env j hb1 hb2 hsvc]

/-- C9 witness: a successful run from the ready state ends with loading false. -/
theorem c9_witness :
    (analyzeResume readyState (envReturning (mkPayload 72 "High"))).state.loading = false :=
  c9_loading_reset readyState _ rfl

/-- C8: on every non-success outcome (missing input, empty extraction, service
error, or undecodable reply), the stored analysis result is unchanged:
`setAnalysisResult` is only reached on the success path. -/
theorem c8_failure_preserves_result (s : AppState) (env : Env)
    (h : (analyzeResume s env).outcome ≠ Outcome.success) :
    (analyzeResume s env).state.analysisResult = s.analysisResult := by
  cases hb1 : (s.resumeFile.isNone || s.jobDescription == "") with
  | true => rw [run_missingInput s env hb1]
  | false =>
    cases hb2 : (jsTrim env.extractedText == "") with
    | true => rw [run_emptyDoc s env hb1 hb2]
    | false =>
      cases hsvc : env.serviceResult with
      | error e => rw [run_serviceError s env e hb1 hb2 hsvc]
      | ok o =>
        cases o with
        | none => rw [run_parseFail s env hb1 hb2 hsvc]
        | some j =>
          exact absurd (by rw [run_success s env j hb1 hb2 hsvc]) h

/-- C8 witness: a run whose reply body is undecodable fails and leaves a
previously stored result in place. -/
theorem c8_witness :
    (analyzeResume
        { readyState with analysisResult := some (mkPayload 72 "High") }
        { extractedText := "Experienced Go developer, 5 years, AWS, Docker",
          serviceResult := .ok none }).state.analysisResult
      = some (mkPayload 72 "High") :=
  c8_failure_preserves_result _ _ (by decide)

/-- C7: prompt construction is a pure deterministic function of
`(resumeText, jobDescription)` — identical inputs give byte-identical payloads —
and the payload embeds the resume text and the job description verbatim, each
surrounded only by the fixed template text, with no truncation. -/
theorem c7_prompt_deterministic_verbatim :
    (∀ r₁ j₁ r₂ j₂ : String, r₁ = r₂ → j₁ = j₂ →
      buildPrompt r₁ j₁ = buildPrompt r₂ j₂) ∧
    (∀ r j : String, ∃ pre mid post : String,
      buildPrompt r j = pre ++ r ++ mid ++ j ++ post) :=
  ⟨fun _ _ _ _ hr hj => by rw [hr, hj],
   fun _ _ => ⟨promptHeader, promptMid, promptTail, rfl⟩⟩

/-- C7 witness: at a concrete resume text and job description, rebuilding gives
the identical payload and the payload embeds both inputs verbatim. -/
theorem c7_witness :
    buildPrompt "Experienced Go developer" "Backend engineer role"
      = buildPrompt "Experienced Go developer" "Backend engineer role" ∧
    ∃ pre mid post : String,
      buildPrompt "Experienced Go developer" "Backend engineer role"
        = pre ++ "Experienced Go developer" ++ mid ++ "Backend engineer role" ++ post :=
  ⟨c7_prompt_deterministic_verbatim.1 _ _ _ _ rfl rfl,
   c7_prompt_deterministic_verbatim.2 _ _⟩

/-- C1 counterexample: the reply `{}` decodes as a JSON object missing every
required field — in particular `overall_summary`, the first field of the schema —
yet the run succeeds and stores the empty object as the analysis result:
the code performs no schema validation and exposes the partially-valid value. -/
theorem c1_missing_field_not_rejected :
    (analyzeResume readyState (envReturning (Json.obj []))).outcome = Outcome.success ∧
    (analyzeResume readyState (envReturning (Json.obj []))).state.analysisResult
      = some (Json.obj []) ∧
    lookupField (Json.obj []) "overall_summary" = none ∧
    requiredFields.head? = some "overall_summary" :=
  ⟨rfl, rfl, rfl, rfl⟩

/-- C1 (amended): the result-handling step is a bare `JSON.parse` with no schema
validation: a reply that is not decodable as JSON makes the run fail with the
generic caught-error outcome (no Malformed/SchemaMismatch distinction exists) and
leaves the stored result unchanged, while any decodable JSON value — whether or
not it has the required fields and types — is exposed as the analysis result
exactly as parsed. -/
theorem c1_parse_exposes_unvalidated_json (s : AppState) (env : Env)
    (h1 : (s.resumeFile.isNone || s.jobDescription == "") = false)
    (h2 : (jsTrim env.extractedText == "") = false) :
    (∀ j : Json, env.serviceResult = .ok (some j) →
      (analyzeResume s env).outcome = Outcome.success ∧
      (analyzeResume s env).state.analysisResult = some j) ∧
    (env.serviceResult = .ok none →
      (analyzeResume s env).outcome = Outcome.failure ∧
      (analyzeResume s env).state.analysisResult = s.analysisResult) := by
  constructor
  · intro j hs
    rw [run_success s env j h1 h2 hs]
    exact ⟨rfl, rfl⟩
  · intro hs
    rw [run_parseFail s env h1 h2 hs]
    exact ⟨rfl, rfl⟩

/-- C1 witness: from the ready state, a decodable reply is stored as parsed and
an undecodable reply fails leaving the stored result unchanged. -/
theorem c1_witness :
    ((analyzeResume readyState (envReturning (mkPayload 72 "High"))).outcome
        = Outcome.success ∧
      (analyzeResume readyState (envReturning (mkPayload 72 "High"))).state.analysisResult
        = some (mkPayload 72 "High")) ∧
    ((analyzeResume readyState
          { extractedText := "Experienced Go developer, 5 years, AWS, Docker",
            serviceResult := .ok none }).outcome = Outcome.failure ∧
      (analyzeResume readyState
          { extractedText := "Experienced Go developer, 5 years, AWS, Docker",
            serviceResult := .ok none }).state.analysisResult
        = readyState.analysisResult) :=
  ⟨(c1_parse_exposes_unvalidated_json readyState (envReturning (mkPayload 72 "High"))
      rfl rfl).1 (mkPayload 72 "High") rfl,
   (c1_parse_exposes_unvalidated_json readyState
      { extractedText := "Experienced Go developer, 5 years, AWS, Docker",
        serviceResult := .ok none } rfl rfl).2 rfl⟩

/-- C2 counterexample: a reply with every field valid except `resume_score = 150`
is accepted and exposed with `resume_score` still `150`, not clamped to `100`. -/
theorem c2_resume_score_150_unclamped :
    (analyzeResume readyState (envReturning (mkPayload 150 "High"))).outcome
      = Outcome.success ∧
    (analyzeResume readyState (envReturning (mkPayload 150 "High"))).state.analysisResult
      = some (mkPayload 150 "High") ∧
    lookupField (mkPayload 150 "High") "resume_score" = some (Json.num 150) ∧
    lookupField (mkPayload 150 "High") "resume_score" ≠ some (Json.num 100) := by
  refine ⟨rfl, rfl, rfl, ?_⟩
  intro hcontra
  rw [show lookupField (mkPayload 150 "High") "resume_score" = some (Json.num 150)
    from rfl] at hcontra
  simp at hcontra

/-- C2 (amended): bounded numeric fields are not clamped: the code performs no
bounds check, so a parsed reply whose `resume_score` lies outside `[0, 100]` is
accepted and its `resume_score` is exposed with the out-of-range value unchanged. -/
theorem c2_no_clamping (s : AppState) (env : Env) (j : Json) (n : Int)
    (h1 : (s.resumeFile.isNone || s.jobDescription == "") = false)
    (h2 : (jsTrim env.extractedText == "") = false)
    (hs : env.serviceResult = .ok (some j))
    (hn : lookupField j "resume_score" = some (Json.num n))
    (_hout : n < 0 ∨ 100 < n) :
    (analyzeResume s env).outcome = Outcome.success ∧
    (analyzeResume s env).state.analysisResult = some j ∧
    lookupField j "resume_score" = some (Json.num n) := by
  rw [run_success s env j h1 h2 hs]
  exact ⟨rfl, rfl, hn⟩

/-- C2 witness: the `resume_score = 150` payload is accepted and exposed with the
score still `150`. -/
theorem c2_witness :
    (analyzeResume readyState (envReturning (mkPayload 150 "High"))).outcome
      = Outcome.success ∧
    (analyzeResume readyState (envReturning (mkPayload 150 "High"))).state.analysisResult
      = some (mkPayload 150 "High") ∧
    lookupField (mkPayload 150 "High") "resume_score" = some (Json.num 150) :=
  c2_no_clamping readyState (envReturning (mkPayload 150 "High"))
    (mkPayload 150 "High") 150 rfl rfl rfl rfl (Or.inr (by norm_num))

/-- C3 counterexample: `analyzeResume` invoked directly while a run is already
loading performs no in-flight check: it is not rejected (no Busy outcome exists
on any branch — here it succeeds) and it starts the pipeline, calling the
service once. -/
theorem c3_no_busy_rejection :
    (analyzeResume { readyState with loading := true }
        (envReturning (mkPayload 72 "High"))).outcome = Outcome.success ∧
    (analyzeResume { readyState with loading := true }
        (envReturning (mkPayload 72 "High"))).serviceCalls = 1 ∧
    Outcome.success ≠ Outcome.busy :=
  ⟨rfl, rfl, by decide⟩

/-- C3 (amended): at-most-one-run is enforced only at the interface: the Analyze
button is disabled while loading, so a second click while a run is in flight
invokes nothing — no pipeline stage starts and no state changes — but no Busy
error kind exists, and `analyzeResume` itself performs no in-flight check. -/
theorem c3_busy_guard_is_disabled_button (s : AppState) (env : Env)
    (h : s.loading = true) : clickAnalyze s env = none := by
  simp [clickAnalyze, h]

/-- C3 witness: with a run in flight, a click on the Analyze button invokes
nothing. -/
theorem c3_witness :
    clickAnalyze { readyState with loading := true }
      (envReturning (mkPayload 72 "High")) = none :=
  c3_busy_guard_is_disabled_button _ _ rfl

/-- C6 counterexample: a reply whose `ats_compatibility` is `"Excellent"` — a
value matching no allowed enum member even case-insensitively — is accepted by
the parse step and exposed unchanged, instead of failing the whole parse. -/
theorem c6_invalid_enum_not_rejected :
    (analyzeResume readyState (envReturning (mkPayload 88 "Excellent"))).outcome
      = Outcome.success ∧
    (analyzeResume readyState (envReturning (mkPayload 88 "Excellent"))).state.analysisResult
      = some (mkPayload 88 "Excellent") ∧
    lookupField (mkPayload 88 "Excellent") "ats_compatibility"
      = some (Json.str "Excellent") ∧
    (jsToLower "Excellent" ≠ "high" ∧ jsToLower "Excellent" ≠ "medium" ∧
      jsToLower "Excellent" ≠ "low") :=
  ⟨rfl, rfl, rfl, by decide⟩

/-- C6 (amended): the parse step performs no enum validation — any string value
of an enum field is accepted and exposed unchanged.  Case-insensitive matching
of `ats_compatibility` against the allowed set occurs only in `getATSColor`,
where the colour depends solely on the lower-cased value and an unmatched value
falls back to the default gray instead of failing anything. -/
theorem c6_enum_unvalidated_color_fallback :
    (∀ c₁ c₂ : String, jsToLower c₁ = jsToLower c₂ → getATSColor c₁ = getATSColor c₂) ∧
    (∀ c : String, jsToLower c ≠ "high" → jsToLower c ≠ "medium" → jsToLower c ≠ "low" →
      getATSColor c = "text-gray-600") ∧
    (∀ (s : AppState) (env : Env) (v : String) (rest : List (String × Json)),
      (s.resumeFile.isNone || s.jobDescription == "") = false →
      (jsTrim env.extractedText == "") = false →
      env.serviceResult = .ok (some (Json.obj (("ats_compatibility", Json.str v) :: rest))) →
      (analyzeResume s env).outcome = Outcome.success ∧
      (analyzeResume s env).state.analysisResult
        = some (Json.obj (("ats_compatibility", Json.str v) :: rest))) := by
  refine ⟨fun c₁ c₂ h => by simp only [getATSColor, h], fun c h1 h2 h3 => ?_, ?_⟩
  · simp only [getATSColor, beq_iff_eq, if_neg h1, if_neg h2, if_neg h3]
  · intro s env v rest h1 h2 hs
    rw [run_success s env _ h1 h2 hs]
    exact ⟨rfl, rfl⟩

/-- C6 witness: colour selection is case-insensitive (`"HIGH"` and `"High"`
agree), an unmatched value falls back to gray, and a reply carrying the
unmatched enum value is accepted and stored. -/
theorem c6_witness :
    getATSColor "HIGH" = getATSColor "High" ∧
    getATSColor "Excellent" = "text-gray-600" ∧
    (analyzeResume readyState
        (envReturning (Json.obj [("ats_compatibility", Json.str "Excellent")]))).outcome
      = Outcome.success :=
  ⟨c6_enum_unvalidated_color_fallback.1 "HIGH" "High" rfl,
   c6_enum_unvalidated_color_fallback.2.1 "Excellent" (by decide) (by decide) (by decide),
   (c6_enum_unvalidated_color_fallback.2.2 readyState
      (envReturning (Json.obj [("ats_compatibility", Json.str "Excellent")]))
      "Excellent" [] rfl rfl rfl).1⟩
